import Mathlib

/-!
# Verification of provider-aws against its specification

Shallow embedding of the claim-relevant parts of the `provider-aws`
repository: the generated servicediscovery `httpnamespace` conversion
functions, the `apigatewayv2` IntegrationResponse controller hooks, the
Route53 Resolver ResolverEndpoint CRD schema, and the elasticache
replication-group controller (modelled from the specification and pinned
by its test file, since only the tests ship in the sources).
-/

set_option maxRecDepth 4000

namespace ProviderAWS

/-! ## Go-style basics

Go pointers to strings and integers are modelled as `Option`; a Go
`error` result is modelled as `Option String` (the message), `none`
standing for Go `nil`; fallible AWS SDK calls are modelled as
`Except String α`. -/

/-- Go `aws.StringValue`: dereference a `*string`, with `""` for `nil`. -/
def stringValue (o : Option String) : String := o.getD ""

/-- Go `aws.Int64Value`: dereference a `*int64`, with `0` for `nil`. -/
def int64Value (o : Option Int) : Int := o.getD 0

/-- A Go `error` value as seen by `IsNotFound`: `nil`, an error
implementing `awserr.Error` (with a code and a message), or any other
error (only its message observable). -/
inductive GoErr where
  | nil : GoErr
  | awserr (code message : String) : GoErr
  | plain (message : String) : GoErr
deriving DecidableEq, Repr

/-! ## servicediscovery httpnamespace conversions (`src/unnamed/part_000`)

Embedded from `GenerateCreateHttpNamespaceInput`,
`GenerateUpdateHttpNamespaceInput` and `IsNotFound` of the generated
package `httpnamespace`. -/

namespace HttpNamespace

/-- `svcapitypes.Tag`: a tag on the custom resource (`*string` fields). -/
structure CRTag where
  Key : Option String := none
  Value : Option String := none
deriving DecidableEq, Repr

/-- `svcsdk.Tag` of the servicediscovery SDK (`*string` fields). -/
structure SdkTag where
  Key : Option String := none
  Value : Option String := none
deriving DecidableEq, Repr

/-- `svcapitypes.HTTPNamespaceParameters`: the `spec.forProvider` block.
A `nil` Go slice of tags is `none`; a present (possibly empty) slice is
`some`. -/
structure HTTPNamespaceParameters where
  Description : Option String := none
  Name : Option String := none
  Tags : Option (List CRTag) := none
deriving DecidableEq, Repr

/-- `svcapitypes.HTTPNamespaceSpec`. -/
structure HTTPNamespaceSpec where
  ForProvider : HTTPNamespaceParameters
deriving DecidableEq, Repr

/-- `svcapitypes.HTTPNamespace`: the custom resource (only the fields
the conversion functions read). -/
structure HTTPNamespace where
  Spec : HTTPNamespaceSpec
deriving DecidableEq, Repr

/-- `svcsdk.CreateHttpNamespaceInput` (fields settable by the
generated conversion; unset fields are `none`). -/
structure CreateHttpNamespaceInput where
  CreatorRequestId : Option String := none
  Description : Option String := none
  Name : Option String := none
  Tags : Option (List SdkTag) := none
deriving DecidableEq, Repr

/-- `svcsdk.HttpNamespaceChange` of the servicediscovery SDK. -/
structure HttpNamespaceChange where
  Description : Option String := none
deriving DecidableEq, Repr

/-- `svcsdk.UpdateHttpNamespaceInput` of the servicediscovery SDK. -/
structure UpdateHttpNamespaceInput where
  Id : Option String := none
  Namespace : Option HttpNamespaceChange := none
  UpdaterRequestId : Option String := none
deriving DecidableEq, Repr

/-- The body of the tag-copying loop of
`GenerateCreateHttpNamespaceInput`: a fresh SDK tag whose key and value
are set from the resource tag when those are non-nil. -/
def copyTag (t : CRTag) : SdkTag :=
  let e : SdkTag := {}
  let e := match t.Key with
    | some k => { e with Key := some k }
    | none => e
  let e := match t.Value with
    | some v => { e with Value := some v }
    | none => e
  e

/-- `GenerateCreateHttpNamespaceInput`: builds a create input from the
custom resource, copying `Description`, `Name` and `Tags` from
`spec.forProvider` when they are non-nil (tags element-wise, each tag
key and value copied when non-nil). -/
def GenerateCreateHttpNamespaceInput (cr : HTTPNamespace) : CreateHttpNamespaceInput :=
  let res : CreateHttpNamespaceInput := {}
  let res := match cr.Spec.ForProvider.Description with
    | some d => { res with Description := some d }
    | none => res
  let res := match cr.Spec.ForProvider.Name with
    | some n => { res with Name := some n }
    | none => res
  let res := match cr.Spec.ForProvider.Tags with
    | some tags => { res with Tags := some (tags.map copyTag) }
    | none => res
  res

/-- `GenerateUpdateHttpNamespaceInput`: builds an update input from the
custom resource. The generated body allocates an empty input and
returns it without copying any field. -/
def GenerateUpdateHttpNamespaceInput (_cr : HTTPNamespace) : UpdateHttpNamespaceInput :=
  let res : UpdateHttpNamespaceInput := {}
  res

/-- `IsNotFound`: type-asserts the error to `awserr.Error` and compares
its code with the literal `"UNKNOWN"`. -/
def IsNotFound (err : GoErr) : Bool :=
  match err with
  | GoErr.awserr code _ => code == "UNKNOWN"
  | _ => false

/-- The servicediscovery not-found error code of the AWS SDK
(`servicediscovery.ErrCodeNamespaceNotFound`). -/
def ErrCodeNamespaceNotFound : String := "NamespaceNotFound"

end HttpNamespace

/-! ## Bytes, FNV-64a and hex rendering

Go strings are sequences of UTF-8 bytes; `hash/fnv`.`fnv64a` hashes
those bytes with the 64-bit FNV-1a function, and `fmt.Sprintf("%x", n)`
renders a `uint64` in lowercase hexadecimal without leading zeros. -/

/-- The UTF-8 bytes of one code point (as natural numbers below 256). -/
def utf8BytesOfCodepoint (c : Nat) : List Nat :=
  if c < 0x80 then [c]
  else if c < 0x800 then
    [0xC0 ||| (c >>> 6), 0x80 ||| (c &&& 0x3F)]
  else if c < 0x10000 then
    [0xE0 ||| (c >>> 12), 0x80 ||| ((c >>> 6) &&& 0x3F), 0x80 ||| (c &&& 0x3F)]
  else
    [0xF0 ||| (c >>> 18), 0x80 ||| ((c >>> 12) &&& 0x3F),
     0x80 ||| ((c >>> 6) &&& 0x3F), 0x80 ||| (c &&& 0x3F)]

/-- The bytes of a Go string (its UTF-8 encoding). -/
def stringBytes (s : String) : List Nat :=
  s.data.flatMap (fun c => utf8BytesOfCodepoint c.toNat)

/-- 64-bit FNV-1a over the bytes of a string, as `hash/fnv` computes it:
offset basis `0xcbf29ce484222325`, prime `0x100000001b3`, xor then
multiply modulo `2 ^ 64` per byte. -/
def fnv64a (s : String) : Nat :=
  (stringBytes s).foldl
    (fun h b => ((h ^^^ b) * 0x100000001b3) % (2 ^ 64)) 0xcbf29ce484222325

/-- The lowercase hexadecimal digit for a value below 16. -/
def hexDigit (n : Nat) : Char :=
  if n < 10 then Char.ofNat (48 + n) else Char.ofNat (87 + n)

/-- Hexadecimal digits of `n`, most significant first; the first
argument is fuel bounding the recursion depth. -/
def hexDigitsAux : Nat → Nat → List Char
  | 0, _ => []
  | fuel + 1, n =>
    if n = 0 then [] else hexDigitsAux fuel (n / 16) ++ [hexDigit (n % 16)]

/-- Go `fmt.Sprintf("%x", n)`: lowercase hex without leading zeros. -/
def natToHex (n : Nat) : String :=
  if n = 0 then "0" else String.mk (hexDigitsAux (n + 1) n)

/-! ## Kubernetes conditions

Both the old crossplane `corev1alpha1.ConditionedStatus` and
crossplane-runtime `xpv1` keep a list of typed conditions where setting
a condition replaces the existing condition of the same type in place,
or appends it. -/

/-- A status condition: a type (such as `Ready`, `Creating`, `Failed`),
a status string (`True` / `False` / `Unknown`), a reason and a message. -/
structure Condition where
  «Type» : String
  Status : String
  Reason : String := ""
  Message : String := ""
deriving DecidableEq, Repr

/-- Set a condition: replace the condition of the same type in place,
or append it at the end. -/
def setCondition (cs : List Condition) (c : Condition) : List Condition :=
  if cs.any (fun x => x.«Type» == c.«Type») then
    cs.map (fun x => if x.«Type» == c.«Type» then c else x)
  else cs ++ [c]

/-- `ConditionedStatus.UnsetAllConditions`: the status of every condition
becomes `False`, reasons and messages untouched. -/
def unsetAllConditions (cs : List Condition) : List Condition :=
  cs.map (fun x => { x with Status := "False" })

/-! ## apigatewayv2 IntegrationResponse hooks
(`src/pkg/controller/apigatewayv2/integrationresponse/setup.go`)

The hooks `preObserve`, `postObserve`, `preCreate`, `postCreate` and
`preDelete` are embedded directly from the source. The custom resource
is a Kubernetes object with annotations (the external name lives in the
annotation `crossplane.io/external-name`), conditions and a
`spec.forProvider` block; the SDK inputs and outputs carry `*string`
fields modelled as `Option String`. -/

namespace IntegrationResponse

/-- The key of the external-name annotation
(`meta.AnnotationKeyExternalName`). -/
def externalNameKey : String := "crossplane.io/external-name"

/-- `svcapitypes.IntegrationResponseParameters`: the fields of
`spec.forProvider` the hooks read (`*string` each). -/
structure IntegrationResponseParameters where
  APIID : Option String := none
  IntegrationID : Option String := none
  IntegrationResponseKey : Option String := none
deriving DecidableEq, Repr

/-- `svcapitypes.IntegrationResponseSpec`. -/
structure IntegrationResponseSpec where
  ForProvider : IntegrationResponseParameters
deriving DecidableEq, Repr

/-- The IntegrationResponse custom resource: its annotations (an
association list keyed by annotation name), its status conditions and
its spec. -/
structure IntegrationResponseCR where
  Annotations : List (String × String) := []
  Conditions : List Condition := []
  Spec : IntegrationResponseSpec
deriving DecidableEq, Repr

/-- `meta.GetExternalName`: the external-name annotation, `""` when the
annotation is absent (a Go map read of a missing key). -/
def getExternalName (cr : IntegrationResponseCR) : String :=
  ((cr.Annotations.lookup externalNameKey).getD "")

/-- `meta.SetExternalName`: store the external name in the annotation,
replacing an existing entry in place or appending one. -/
def setExternalName (cr : IntegrationResponseCR) (n : String) : IntegrationResponseCR :=
  bif cr.Annotations.any (fun kv => kv.1 == externalNameKey) then
    { cr with Annotations :=
        cr.Annotations.map (fun kv => bif kv.1 == externalNameKey then (kv.1, n) else kv) }
  else
    { cr with Annotations := cr.Annotations ++ [(externalNameKey, n)] }

/-- `xpv1.Available()`: the Ready condition with status True and reason
Available. -/
def availableCondition : Condition :=
  { «Type» := "Ready", Status := "True", Reason := "Available" }

/-- `svcsdk.GetIntegrationResponseInput` (all of its fields). -/
structure GetIntegrationResponseInput where
  ApiId : Option String := none
  IntegrationId : Option String := none
  IntegrationResponseId : Option String := none
deriving DecidableEq, Repr

/-- `svcsdk.CreateIntegrationResponseInput`: the create request; it has
no `IntegrationResponseId` field (AWS assigns the id). -/
structure CreateIntegrationResponseInput where
  ApiId : Option String := none
  ContentHandlingStrategy : Option String := none
  IntegrationId : Option String := none
  IntegrationResponseKey : Option String := none
  ResponseParameters : List (String × String) := []
  ResponseTemplates : List (String × String) := []
  TemplateSelectionExpression : Option String := none
deriving DecidableEq, Repr

/-- `svcsdk.DeleteIntegrationResponseInput` (all of its fields). -/
structure DeleteIntegrationResponseInput where
  ApiId : Option String := none
  IntegrationId : Option String := none
  IntegrationResponseId : Option String := none
deriving DecidableEq, Repr

/-- `svcsdk.CreateIntegrationResponseOutput` (the field `postCreate`
reads). -/
structure CreateIntegrationResponseOutput where
  IntegrationResponseId : Option String := none
deriving DecidableEq, Repr

/-- `managed.ExternalObservation`; its Go zero value is `{}`. -/
structure ExternalObservation where
  ResourceExists : Bool := false
  ResourceUpToDate : Bool := false
  ResourceLateInitialized : Bool := false
  ConnectionDetails : List (String × String) := []
deriving DecidableEq, Repr

/-- `managed.ExternalCreation`; its Go zero value is `{}`. -/
structure ExternalCreation where
  ExternalNameAssigned : Bool := false
  ConnectionDetails : List (String × String) := []
deriving DecidableEq, Repr

/-- `preObserve`: fills `ApiId`, `IntegrationId` from the spec and
`IntegrationResponseId` from the external-name annotation; returns a
nil error. The mutated input is returned together with the error. -/
def preObserve (cr : IntegrationResponseCR) (obj : GetIntegrationResponseInput) :
    GetIntegrationResponseInput × Option String :=
  ({ obj with
      ApiId := cr.Spec.ForProvider.APIID
      IntegrationId := cr.Spec.ForProvider.IntegrationID
      IntegrationResponseId := some (getExternalName cr) }, none)

/-- `postObserve`: a non-nil error is returned with a zero observation;
otherwise the Available condition is set on the resource and the
observation is passed through. Returns the (possibly updated) resource,
the observation and the error. -/
def postObserve (cr : IntegrationResponseCR) (obs : ExternalObservation)
    (err : Option String) :
    IntegrationResponseCR × ExternalObservation × Option String :=
  match err with
  | some e => (cr, {}, some e)
  | none =>
    ({ cr with Conditions := setCondition cr.Conditions availableCondition }, obs, none)

/-- `preCreate`: fills `ApiId` and `IntegrationId` from the spec;
returns a nil error. -/
def preCreate (cr : IntegrationResponseCR) (obj : CreateIntegrationResponseInput) :
    CreateIntegrationResponseInput × Option String :=
  ({ obj with
      ApiId := cr.Spec.ForProvider.APIID
      IntegrationId := cr.Spec.ForProvider.IntegrationID }, none)

/-- `postCreate`: a non-nil error is returned with a zero creation;
otherwise the external-name annotation is set to the
`IntegrationResponseId` of the response (dereferenced with `""` for nil) and the
creation is passed through. -/
def postCreate (cr : IntegrationResponseCR) (resp : CreateIntegrationResponseOutput)
    (cre : ExternalCreation) (err : Option String) :
    IntegrationResponseCR × ExternalCreation × Option String :=
  match err with
  | some e => (cr, {}, some e)
  | none => (setExternalName cr (stringValue resp.IntegrationResponseId), cre, none)

/-- `preDelete`: fills `ApiId`, `IntegrationId` from the spec and
`IntegrationResponseId` from the external-name annotation; returns
`(false, nil)`. -/
def preDelete (cr : IntegrationResponseCR) (obj : DeleteIntegrationResponseInput) :
    DeleteIntegrationResponseInput × Bool × Option String :=
  ({ obj with
      ApiId := cr.Spec.ForProvider.APIID
      IntegrationId := cr.Spec.ForProvider.IntegrationID
      IntegrationResponseId := some (getExternalName cr) }, false, none)

end IntegrationResponse

/-! ## Route53 Resolver ResolverEndpoint CRD
(`src/package/crds/route53resolver.aws.crossplane.io_resolverendpoints.yaml`)

The `openAPIV3Schema` of the CRD is transcribed into a validation
function over JSON-like values, and the `default:` markers of the schema into
a defaulting function, as the Kubernetes API server applies them at
admission. -/

/-- A JSON value as the API server sees an object. -/
inductive JValue where
  | jnull : JValue
  | jbool : Bool → JValue
  | jnum : Int → JValue
  | jstr : String → JValue
  | jarr : List JValue → JValue
  | jobj : List (String × JValue) → JValue

/-- Field lookup in a JSON object body. -/
def jlookup (fields : List (String × JValue)) (k : String) : Option JValue :=
  List.lookup k fields

namespace ResolverEndpointCRD

/-- `type: string`. -/
def isStr : JValue → Bool
  | JValue.jstr _ => true
  | _ => false

/-- `type: object` (with no further constraint transcribed). -/
def isObj : JValue → Bool
  | JValue.jobj _ => true
  | _ => false

/-- A property that the schema constrains only when it is present. -/
def optField (fields : List (String × JValue)) (k : String) (p : JValue → Bool) : Bool :=
  match jlookup fields k with
  | none => true
  | some v => p v

/-- A property listed under `required:`: present and well-typed. -/
def reqField (fields : List (String × JValue)) (k : String) (p : JValue → Bool) : Bool :=
  match jlookup fields k with
  | none => false
  | some v => p v

/-- An object with `required: [name]` and `name: {type: string}` (the
shape of `providerConfigRef`, `providerRef` and the reference items). -/
def checkNameRef : JValue → Bool
  | JValue.jobj fields => reqField fields "name" isStr
  | _ => false

/-- `writeConnectionSecretToRef`: object with required string `name`
and `namespace`. -/
def checkSecretRef : JValue → Bool
  | JValue.jobj fields => reqField fields "name" isStr && reqField fields "namespace" isStr
  | _ => false

/-- `subnetIdSelector` / `securityGroupIdSelector`: object with optional
`matchControllerRef: boolean` and `matchLabels: object`. -/
def checkSelector : JValue → Bool
  | JValue.jobj fields =>
    optField fields "matchControllerRef" (fun v =>
      match v with | JValue.jbool _ => true | _ => false)
    && optField fields "matchLabels" isObj
  | _ => false

/-- An `IPAddressRequest` item of `ipAddresses`: object with optional
string `ip` and `subnetId`, optional `subnetIdRef` (required `name`) and
optional `subnetIdSelector`. Nothing is required. -/
def checkIPAddressRequest : JValue → Bool
  | JValue.jobj fields =>
    optField fields "ip" isStr
    && optField fields "subnetId" isStr
    && optField fields "subnetIdRef" checkNameRef
    && optField fields "subnetIdSelector" checkSelector
  | _ => false

/-- A `tags` item: object with optional string `key` and `value`. -/
def checkTag : JValue → Bool
  | JValue.jobj fields => optField fields "key" isStr && optField fields "value" isStr
  | _ => false

/-- `spec.forProvider` (`ResolverEndpointParameters`): object with
`required: [direction, ipAddresses, region]`; `direction`, `name` and
`region` strings, `ipAddresses` an array of `IPAddressRequest`,
`securityGroupIds` an array of strings, `securityGroupIdRefs` an array
of name references, `tags` an array of tags. -/
def checkForProvider : JValue → Bool
  | JValue.jobj fields =>
    reqField fields "direction" isStr
    && reqField fields "ipAddresses" (fun v =>
        match v with
        | JValue.jarr items => items.all checkIPAddressRequest
        | _ => false)
    && reqField fields "region" isStr
    && optField fields "name" isStr
    && optField fields "securityGroupIds" (fun v =>
        match v with
        | JValue.jarr items => items.all isStr
        | _ => false)
    && optField fields "securityGroupIdRefs" (fun v =>
        match v with
        | JValue.jarr items => items.all checkNameRef
        | _ => false)
    && optField fields "securityGroupIdSelector" checkSelector
    && optField fields "tags" (fun v =>
        match v with
        | JValue.jarr items => items.all checkTag
        | _ => false)
  | _ => false

/-- `spec` (`ResolverEndpointSpec`): object with
`required: [forProvider]`; `deletionPolicy` a string restricted by
`enum: [Orphan, Delete]`; the reference blocks as transcribed above. -/
def checkSpec : JValue → Bool
  | JValue.jobj fields =>
    reqField fields "forProvider" checkForProvider
    && optField fields "deletionPolicy" (fun v =>
        match v with
        | JValue.jstr s => s == "Orphan" || s == "Delete"
        | _ => false)
    && optField fields "providerConfigRef" checkNameRef
    && optField fields "providerRef" checkNameRef
    && optField fields "writeConnectionSecretToRef" checkSecretRef
  | _ => false

/-- The whole `openAPIV3Schema`: object with `required: [spec]`;
`apiVersion` and `kind` strings, `metadata` and `status` objects. -/
def checkResolverEndpoint : JValue → Bool
  | JValue.jobj fields =>
    reqField fields "spec" checkSpec
    && optField fields "apiVersion" isStr
    && optField fields "kind" isStr
    && optField fields "metadata" isObj
    && optField fields "status" isObj
  | _ => false

/-- The marker `default: Delete` of the schema on `spec.deletionPolicy`:
at admission the API server fills the absent field with `Delete`, so
the effective deletion policy of an admitted spec body is the stored
value when present and `Delete` otherwise. -/
def defaultedDeletionPolicy (sp : List (String × JValue)) : JValue :=
  (jlookup sp "deletionPolicy").getD (JValue.jstr "Delete")

/-- A minimal admitted ResolverEndpoint object: a spec whose
`forProvider` carries the three required fields and no
`deletionPolicy`. -/
def sampleEndpoint : JValue :=
  JValue.jobj [("spec", JValue.jobj
    [("forProvider", JValue.jobj
      [("direction", JValue.jstr "INBOUND"),
       ("ipAddresses", JValue.jarr [JValue.jobj [("subnetId", JValue.jstr "subnet-1")]]),
       ("region", JValue.jstr "us-east-1")])])]

end ResolverEndpointCRD

/-! ## elasticache replication-group controller (`package cache`)

Only the test file of the controller (`src/unnamed/part_001`) ships in the
sources; the controller itself (`elastiCache.Create` / `Sync` /
`Delete`, `connectionSecret`, and the elasticache client helper
`NewReplicationGroupID`) is modelled from the description given by the
specification of the reconciliation loop pattern (Connect → Observe →
Create/Update/Delete, condition-setting, finalizer management,
connection-secret publishing) and pinned by the expectations of that
test file. -/

namespace Cache

/-- `v1alpha1.StatusCreating`. -/
def StatusCreating : String := "creating"

/-- `v1alpha1.StatusDeleting`. -/
def StatusDeleting : String := "deleting"

/-- `v1alpha1.StatusModifying`. -/
def StatusModifying : String := "modifying"

/-- `v1alpha1.StatusAvailable`. -/
def StatusAvailable : String := "available"

/-- `corev1alpha1.ReclaimDelete`. -/
def ReclaimDelete : String := "Delete"

/-- `corev1alpha1.ReclaimRetain`. -/
def ReclaimRetain : String := "Retain"

/-- Modelled from the spec: the finalizer name of the cache controller
(`finalizerName`); the concrete string is not fixed by the sources. -/
def finalizerName : String := "finalizer.cache.crossplane.io"

/-- Modelled from the spec: the condition reason `reasonCreatingResource`. -/
def reasonCreatingResource : String := "failed to create resource"

/-- Modelled from the spec: the condition reason `reasonDeletingResource`. -/
def reasonDeletingResource : String := "failed to delete resource"

/-- Modelled from the spec: the condition reason `reasonSyncingResource`. -/
def reasonSyncingResource : String := "failed to sync resource"

/-- Modelled from the spec: `elasticacheclient.NamePrefix`, the prefix
of generated replication group names; the concrete string is not fixed
by the sources. -/
def NamePrefixStr : String := "ec"

/-- `v1alpha1.APIVersion` of the cache API group. -/
def APIVersionStr : String := "cache.aws.crossplane.io/v1alpha1"

/-- `v1alpha1.ReplicationGroupKind`. -/
def ReplicationGroupKindStr : String := "ReplicationGroup"

/-- `corev1alpha1.ResourceCredentialsSecretEndpointKey`. -/
def endpointKey : String := "endpoint"

/-- `corev1alpha1.ResourceCredentialsSecretPasswordKey`. -/
def passwordKey : String := "password"

/-- Modelled from the spec: `elasticacheclient.NewReplicationGroupID`,
the deterministic name derived from the UID of the resource: `NamePrefix`,
a dash, and the FNV-64a hash of the UID rendered in hex (`%x`). The
test file fixes `id = NamePrefix + "-efdd8494195d7940"`, the FNV-64a
hash of the UID `definitely-a-uuid`. -/
def NewReplicationGroupID (uid : String) : String :=
  NamePrefixStr ++ "-" ++ natToHex (fnv64a uid)

/-- `metav1.ObjectMeta` (the fields the controller touches). -/
structure ObjectMeta where
  Namespace : String := ""
  Name : String := ""
  UID : String := ""
  Finalizers : List String := []
deriving DecidableEq, Repr

/-- `v1alpha1.ReplicationGroupSpec` (the fields the controller reads). -/
structure ReplicationGroupSpec where
  AutomaticFailoverEnabled : Bool := false
  CacheNodeType : String := ""
  CacheParameterGroupName : String := ""
  EngineVersion : String := ""
  PreferredMaintenanceWindow : String := ""
  SnapshotRetentionLimit : Int := 0
  SnapshotWindow : String := ""
  TransitEncryptionEnabled : Bool := false
  AuthEnabled : Bool := false
  ReclaimPolicy : String := ""
  ProviderRefName : String := ""
  ConnectionSecretRefName : String := ""
deriving DecidableEq, Repr

/-- `v1alpha1.ReplicationGroupStatus`. -/
structure ReplicationGroupStatus where
  Conditions : List Condition := []
  State : String := ""
  ProviderID : String := ""
  Endpoint : String := ""
  Port : Int := 0
  GroupName : String := ""
  ClusterEnabled : Bool := false
  MemberClusters : List String := []
deriving DecidableEq, Repr

/-- `v1alpha1.ReplicationGroup`: the managed custom resource. -/
structure ReplicationGroup where
  ObjMeta : ObjectMeta := {}
  Spec : ReplicationGroupSpec := {}
  Status : ReplicationGroupStatus := {}
deriving DecidableEq, Repr

/-- `elasticache.Endpoint` of the AWS SDK. -/
structure SdkEndpoint where
  Address : Option String := none
  Port : Option Int := none
deriving DecidableEq, Repr

/-- `elasticache.ReplicationGroup` of the AWS SDK (the fields the
controller reads from `DescribeReplicationGroups`). -/
structure SdkReplicationGroup where
  Status : Option String := none
  MemberClusters : List String := []
  AutomaticFailover : String := ""
  CacheNodeType : Option String := none
  SnapshotRetentionLimit : Option Int := none
  SnapshotWindow : Option String := none
  ConfigurationEndpoint : Option SdkEndpoint := none
deriving DecidableEq, Repr

/-- `elasticache.CacheCluster` of the AWS SDK (the fields the
controller reads from `DescribeCacheClusters`). -/
structure SdkCacheCluster where
  EngineVersion : Option String := none
  PreferredMaintenanceWindow : Option String := none
deriving DecidableEq, Repr

/-- The elasticache client as the controller calls it: each AWS call
either fails with an error message or returns its payload.
`DescribeReplicationGroups` is keyed by the group name and yields the
single group the controller reads from the response;
`DescribeCacheClusters` is keyed by the cache cluster id. -/
structure Client where
  describeReplicationGroups : String → Except String SdkReplicationGroup
  describeCacheClusters : String → Except String SdkCacheCluster
  createReplicationGroup : Unit → Except String Unit
  modifyReplicationGroup : Unit → Except String Unit
  deleteReplicationGroup : String → Except String Unit

/-- `ConditionedStatus.SetFailed` on the resource: set the Failed
condition with the given reason and message. -/
def setFailed (g : ReplicationGroup) (reason message : String) : ReplicationGroup :=
  let c : Condition := { «Type» := "Failed", Status := "True", Reason := reason, Message := message }
  { g with Status.Conditions := setCondition g.Status.Conditions c }

/-- `ConditionedStatus.SetCreating`: unset all conditions, then set
Creating true. -/
def setCreating (g : ReplicationGroup) : ReplicationGroup :=
  let c : Condition := { «Type» := "Creating", Status := "True" }
  { g with Status.Conditions := setCondition (unsetAllConditions g.Status.Conditions) c }

/-- `ConditionedStatus.SetDeleting`: unset all conditions, then set
Deleting true. -/
def setDeleting (g : ReplicationGroup) : ReplicationGroup :=
  let c : Condition := { «Type» := "Deleting", Status := "True" }
  { g with Status.Conditions := setCondition (unsetAllConditions g.Status.Conditions) c }

/-- `ConditionedStatus.SetReady`: unset all conditions, then set Ready
true. -/
def setReady (g : ReplicationGroup) : ReplicationGroup :=
  let c : Condition := { «Type» := "Ready", Status := "True" }
  { g with Status.Conditions := setCondition (unsetAllConditions g.Status.Conditions) c }

/-- `util.AddFinalizer`: append the finalizer unless already present. -/
def addFinalizer (g : ReplicationGroup) : ReplicationGroup :=
  if g.ObjMeta.Finalizers.contains finalizerName then g
  else { g with ObjMeta.Finalizers := g.ObjMeta.Finalizers ++ [finalizerName] }

/-- `util.RemoveFinalizer`: drop every occurrence of the finalizer. -/
def removeFinalizer (g : ReplicationGroup) : ReplicationGroup :=
  { g with ObjMeta.Finalizers := g.ObjMeta.Finalizers.filter (fun f => f != finalizerName) }

/-- The comparison behind `replicationGroupNeedsUpdate`, phrased on the
spec block it reads (automatic failover, node type, snapshot retention
limit and window). -/
def replicationGroupSpecNeedsUpdate (sp : ReplicationGroupSpec)
    (rg : SdkReplicationGroup) : Bool :=
  sp.AutomaticFailoverEnabled
      != (rg.AutomaticFailover == "enabled" || rg.AutomaticFailover == "enabling")
  || sp.CacheNodeType != stringValue rg.CacheNodeType
  || sp.SnapshotRetentionLimit != int64Value rg.SnapshotRetentionLimit
  || sp.SnapshotWindow != stringValue rg.SnapshotWindow

/-- Modelled from the spec: `replicationGroupNeedsUpdate`, the drift
check between the desired spec and the described replication group, as
exercised by the `...NeedsUpdate` test cases. -/
def replicationGroupNeedsUpdate (g : ReplicationGroup) (rg : SdkReplicationGroup) : Bool :=
  replicationGroupSpecNeedsUpdate g.Spec rg

/-- The comparison behind `cacheClusterNeedsUpdate`, phrased on the
spec block it reads (engine version and maintenance window). -/
def cacheClusterSpecNeedsUpdate (sp : ReplicationGroupSpec) (cc : SdkCacheCluster) : Bool :=
  sp.EngineVersion != stringValue cc.EngineVersion
  || sp.PreferredMaintenanceWindow != stringValue cc.PreferredMaintenanceWindow

/-- Modelled from the spec: `cacheClusterNeedsUpdate`, the drift check
between the desired spec and one described cache cluster. -/
def cacheClusterNeedsUpdate (g : ReplicationGroup) (cc : SdkCacheCluster) : Bool :=
  cacheClusterSpecNeedsUpdate g.Spec cc

/-- Describe each member cache cluster in order; the first failure
wins, tagged with the cluster id it occurred on. -/
def describeEach (c : Client) : List String → Except (String × String) (List SdkCacheCluster)
  | [] => Except.ok []
  | clusterID :: rest =>
    match c.describeCacheClusters clusterID with
    | Except.error e => Except.error (clusterID, e)
    | Except.ok cc =>
      match describeEach c rest with
      | Except.error err => Except.error err
      | Except.ok ccs => Except.ok (cc :: ccs)

/-- Modelled from the spec: `elastiCache.Create`. Issues
`CreateReplicationGroup`; on failure sets the Failed condition with
reason `reasonCreatingResource` and the error message; on success sets
`Status.GroupName` to the deterministic id, the Creating condition and
the finalizer. Returns the updated resource and the requeue flag
(always true). -/
def Create (c : Client) (g : ReplicationGroup) : ReplicationGroup × Bool :=
  match c.createReplicationGroup () with
  | Except.error e => (setFailed g reasonCreatingResource e, true)
  | Except.ok _ =>
    let g := { g with Status.GroupName := NewReplicationGroupID g.ObjMeta.UID }
    let g := setCreating g
    let g := addFinalizer g
    (g, true)

/-- Modelled from the spec: `elastiCache.Sync`. Describes the
replication group named `Status.GroupName`; on failure sets Failed with
reason `reasonSyncingResource` and requeues. Otherwise copies the
reported status into `Status.State` and branches: while creating it
sets Creating and requeues; while deleting it sets Deleting and stops;
while modifying it unsets all conditions and requeues. Otherwise
(available) it sets Ready, copies member clusters and the configuration
endpoint, describes each member cache cluster (a failure sets Failed
with a wrapped message and requeues), issues `ModifyReplicationGroup`
when the group or a cache cluster drifted from the spec (a failure sets
Failed and requeues), and finally stops requeueing. -/
def Sync (c : Client) (g : ReplicationGroup) : ReplicationGroup × Bool :=
  match c.describeReplicationGroups g.Status.GroupName with
  | Except.error e => (setFailed g reasonSyncingResource e, true)
  | Except.ok rg =>
    let g := { g with Status.State := stringValue rg.Status }
    if g.Status.State == StatusCreating then (setCreating g, true)
    else if g.Status.State == StatusDeleting then (setDeleting g, false)
    else if g.Status.State == StatusModifying then
      ({ g with Status.Conditions := unsetAllConditions g.Status.Conditions }, true)
    else
      let g := setReady g
      let g := { g with Status.MemberClusters := rg.MemberClusters }
      let g := match rg.ConfigurationEndpoint with
        | some ep =>
          { g with Status.Endpoint := stringValue ep.Address, Status.Port := int64Value ep.Port }
        | none => g
      match describeEach c g.Status.MemberClusters with
      | Except.error (clusterID, e) =>
        (setFailed g reasonSyncingResource
          ("cannot describe cache cluster " ++ clusterID ++ ": " ++ e), true)
      | Except.ok ccs =>
        if replicationGroupNeedsUpdate g rg || ccs.any (cacheClusterNeedsUpdate g) then
          match c.modifyReplicationGroup () with
          | Except.error e => (setFailed g reasonSyncingResource e, true)
          | Except.ok _ => (g, false)
        else (g, false)

/-- Modelled from the spec: `elastiCache.Delete`. Under reclaim policy
Delete it issues `DeleteReplicationGroup`; a failure sets the Failed
condition with reason `reasonDeletingResource` and the error message
and requeues, keeping the finalizer. Otherwise (the call succeeded, or
the policy does not require deletion) it sets the Deleting condition,
removes the finalizer and stops requeueing. -/
def Delete (c : Client) (g : ReplicationGroup) : ReplicationGroup × Bool :=
  if g.Spec.ReclaimPolicy == ReclaimDelete then
    match c.deleteReplicationGroup g.Status.GroupName with
    | Except.error e => (setFailed g reasonDeletingResource e, true)
    | Except.ok _ => (removeFinalizer (setDeleting g), false)
  else (removeFinalizer (setDeleting g), false)

/-- A Kubernetes owner reference. -/
structure OwnerReference where
  APIVersion : String
  Kind : String
  Name : String
  UID : String
deriving DecidableEq, Repr

/-- A `corev1.Secret` as the controller builds it (data as an
association list in construction order). -/
structure Secret where
  Name : String
  Namespace : String
  OwnerReferences : List OwnerReference
  Data : List (String × String)
deriving DecidableEq, Repr

/-- Modelled from the spec: `connectionSecret`, the connection secret
published for a replication group: named by the
connection-secret reference of the resource, in its namespace, owned by the
resource, and carrying the endpoint and the password. -/
def connectionSecret (g : ReplicationGroup) (password : String) : Secret :=
  { Name := g.Spec.ConnectionSecretRefName
    Namespace := g.ObjMeta.Namespace
    OwnerReferences := [{ APIVersion := APIVersionStr
                          Kind := ReplicationGroupKindStr
                          Name := g.ObjMeta.Name
                          UID := g.ObjMeta.UID }]
    Data := [(endpointKey, g.Status.Endpoint), (passwordKey, password)] }

/-- The Failed condition with a reason and a message, as
`ConditionedStatus.SetFailed` builds it. -/
def failedCondition (reason message : String) : Condition :=
  { «Type» := "Failed", Status := "True", Reason := reason, Message := message }

/-- The Creating condition with status True. -/
def creatingCondition : Condition := { «Type» := "Creating", Status := "True" }

/-- The Deleting condition with status True. -/
def deletingCondition : Condition := { «Type» := "Deleting", Status := "True" }

/-- Whether every AWS call the available branch of `Sync` makes
succeeds: describing each member cache cluster, and, when the group or
a cache cluster drifted from the desired spec, the modify call. -/
def availableCallsSucceed (c : Client) (g : ReplicationGroup)
    (rg : SdkReplicationGroup) : Bool :=
  match describeEach c rg.MemberClusters with
  | Except.error _ => false
  | Except.ok ccs =>
    if replicationGroupNeedsUpdate g rg || ccs.any (cacheClusterNeedsUpdate g) then
      match c.modifyReplicationGroup () with
      | Except.error _ => false
      | Except.ok _ => true
    else true

/-! ### Fixtures of the test file (`src/unnamed/part_001`)

The concrete resource, clients and expectations of `TestCreate`,
`TestSync`, `TestDelete` and `TestConnectionSecret`, used below to
check the modelled controller against every test case. -/

/-- The `meta` of the test file. -/
def testMeta : ObjectMeta :=
  { Namespace := "coolNamespace", Name := "coolGroup",
    UID := "definitely-a-uuid", Finalizers := [] }

/-- The spec every `replicationGroup(...)` fixture starts from. -/
def testSpec : ReplicationGroupSpec :=
  { AutomaticFailoverEnabled := true, CacheNodeType := "n1.super.cool",
    CacheParameterGroupName := "coolParamGroup", EngineVersion := "5.0.0",
    PreferredMaintenanceWindow := "tomorrow", SnapshotRetentionLimit := 1,
    SnapshotWindow := "thedayaftertomorrow", TransitEncryptionEnabled := true,
    ProviderRefName := "cool-aws", ConnectionSecretRefName := "cool-connection-secret" }

/-- The base `replicationGroup()` fixture. -/
def testRG : ReplicationGroup := { ObjMeta := testMeta, Spec := testSpec }

/-- The `id` constant: `NamePrefix + "-efdd8494195d7940"`, which the
test file states is the FNV-64a hash of the UID. -/
def testID : String := NamePrefixStr ++ "-efdd8494195d7940"

/-- The `cacheClusterID` constant: `id + "-0001"`. -/
def testCacheClusterID : String := testID ++ "-0001"

/-- A client whose unexercised calls fail loudly, as a missing mock
would. -/
def baseClient : Client :=
  { describeReplicationGroups := fun _ => Except.error "unused"
    describeCacheClusters := fun _ => Except.error "unused"
    createReplicationGroup := fun _ => Except.ok ()
    modifyReplicationGroup := fun _ => Except.error "unused"
    deleteReplicationGroup := fun _ => Except.error "unused" }

/-- The client of `FailedCreate`. -/
def boomCreateClient : Client :=
  { baseClient with createReplicationGroup := fun _ => Except.error "boom" }

/-- The client of `SuccessfulSyncWhileGroupCreating`. -/
def syncCreatingClient : Client :=
  { baseClient with
    describeReplicationGroups := fun _ => Except.ok { Status := some StatusCreating } }

/-- The client of `SuccessfulSyncWhileGroupDeleting`. -/
def syncDeletingClient : Client :=
  { baseClient with
    describeReplicationGroups := fun _ => Except.ok { Status := some StatusDeleting } }

/-- The client of `SuccessfulSyncWhileGroupModifying`. -/
def syncModifyingClient : Client :=
  { baseClient with
    describeReplicationGroups := fun _ => Except.ok { Status := some StatusModifying } }

/-- The described group of the available test cases. -/
def availRG : SdkReplicationGroup :=
  { Status := some StatusAvailable, MemberClusters := [testCacheClusterID],
    AutomaticFailover := "enabled", CacheNodeType := some "n1.super.cool",
    SnapshotRetentionLimit := some 1, SnapshotWindow := some "thedayaftertomorrow",
    ConfigurationEndpoint := some { Address := some "172.16.0.1", Port := some 6379 } }

/-- The client of `SuccessfulSyncWhileGroupAvailableAndDoesNotNeedUpdate`. -/
def availNoUpdClient : Client :=
  { baseClient with
    describeReplicationGroups := fun _ => Except.ok availRG
    describeCacheClusters := fun _ => Except.ok
      { EngineVersion := some "5.0.0", PreferredMaintenanceWindow := some "tomorrow" } }

/-- The client of `SuccessfulSyncWhileGroupAvailableAndNeedsUpdate`:
automatic failover is disabled on the described group and the modify
call succeeds. -/
def availNeedsUpdClient : Client :=
  { availNoUpdClient with
    describeReplicationGroups := fun _ =>
      Except.ok { availRG with AutomaticFailover := "disabled" }
    modifyReplicationGroup := fun _ => Except.ok () }

/-- The client of `SuccessfulSyncWhileGroupAvailableAndCacheClustersNeedUpdate`. -/
def availCCNeedsUpdClient : Client :=
  { availNoUpdClient with
    describeCacheClusters := fun _ => Except.ok
      { EngineVersion := some "5.0.0", PreferredMaintenanceWindow := some "never!" }
    modifyReplicationGroup := fun _ => Except.ok () }

/-- The client of `FailedDescribeReplicationGroups`. -/
def syncBoomClient : Client :=
  { baseClient with describeReplicationGroups := fun _ => Except.error "boom" }

/-- The client of `FailedDescribeCacheClusters`. -/
def ccBoomClient : Client :=
  { baseClient with
    describeReplicationGroups := fun _ => Except.ok
      { Status := some StatusAvailable, MemberClusters := [testCacheClusterID] }
    describeCacheClusters := fun _ => Except.error "boom" }

/-- The client of `FailedModifyReplicationGroup`. -/
def modifyBoomClient : Client :=
  { availNoUpdClient with
    describeCacheClusters := fun _ => Except.ok
      { EngineVersion := some "5.0.0", PreferredMaintenanceWindow := some "never!" }
    modifyReplicationGroup := fun _ => Except.error "boom" }

/-- The client of `ReclaimDeleteSuccessfulDelete`. -/
def deleteOkClient : Client :=
  { baseClient with deleteReplicationGroup := fun _ => Except.ok () }

/-- The client of `ReclaimDeleteFailedDelete`. -/
def deleteBoomClient : Client :=
  { baseClient with deleteReplicationGroup := fun _ => Except.error "boom" }

/-- The resource of the sync test cases: group name set, Creating true. -/
def syncInputRG : ReplicationGroup :=
  { testRG with
    Status.GroupName := "coolGroup"
    Status.Conditions := [creatingCondition] }

/-- The expectation shared by the three successful available sync test
cases. -/
def availWantRG : ReplicationGroup :=
  { testRG with
    Status.State := StatusAvailable
    Status.GroupName := "coolGroup"
    Status.Conditions := [{ «Type» := "Creating", Status := "False" }, { «Type» := "Ready", Status := "True" }]
    Status.Port := 6379
    Status.Endpoint := "172.16.0.1"
    Status.MemberClusters := [testCacheClusterID] }

end Cache

/-! ## Validation of the modelled cache controller

Every test case of `TestCreate`, `TestSync`, `TestDelete` and
`TestConnectionSecret` in `src/unnamed/part_001`, replayed against the
model: the updated resource and the requeue flag match the expectation
of the test exactly (conditions in order, messages included). -/

namespace Cache

/-- `TestCreate/SuccessfulCreate`. -/
example : Create baseClient { testRG with Spec.AuthEnabled := true } =
    ({ testRG with
        Spec.AuthEnabled := true
        Status.Conditions := [creatingCondition]
        Status.GroupName := testID
        ObjMeta.Finalizers := [finalizerName] }, true) := by decide

/-- `TestCreate/FailedCreate`. -/
example : Create boomCreateClient testRG =
    ({ testRG with
        Status.Conditions := [failedCondition reasonCreatingResource "boom"] }, true) := by
  decide

/-- `TestSync/SuccessfulSyncWhileGroupCreating`. -/
example : Sync syncCreatingClient
      { testRG with
        Status.GroupName := "coolGroup"
        Status.Conditions := [failedCondition reasonCreatingResource "boom"] } =
    ({ testRG with
        Status.State := StatusCreating
        Status.GroupName := "coolGroup"
        Status.Conditions :=
          [{ «Type» := "Failed", Status := "False", Reason := reasonCreatingResource, Message := "boom" },
           creatingCondition] }, true) := by decide

/-- `TestSync/SuccessfulSyncWhileGroupDeleting`. -/
example : Sync syncDeletingClient
      { testRG with
        Status.GroupName := "coolGroup"
        Status.Conditions := [deletingCondition] } =
    ({ testRG with
        Status.GroupName := "coolGroup"
        Status.State := StatusDeleting
        Status.Conditions := [deletingCondition] }, false) := by decide

/-- `TestSync/SuccessfulSyncWhileGroupModifying`. -/
example : Sync syncModifyingClient
      { testRG with
        Status.GroupName := "coolGroup"
        Status.Conditions := [{ «Type» := "Ready", Status := "True" }] } =
    ({ testRG with
        Status.State := StatusModifying
        Status.GroupName := "coolGroup"
        Status.Conditions := [{ «Type» := "Ready", Status := "False" }] }, true) := by decide

/-- `TestSync/SuccessfulSyncWhileGroupAvailableAndDoesNotNeedUpdate`. -/
example : Sync availNoUpdClient syncInputRG = (availWantRG, false) := by decide

/-- `TestSync/SuccessfulSyncWhileGroupAvailableAndNeedsUpdate`. -/
example : Sync availNeedsUpdClient syncInputRG = (availWantRG, false) := by decide

/-- `TestSync/SuccessfulSyncWhileGroupAvailableAndCacheClustersNeedUpdate`. -/
example : Sync availCCNeedsUpdClient syncInputRG = (availWantRG, false) := by decide

/-- `TestSync/FailedDescribeReplicationGroups`. -/
example : Sync syncBoomClient syncInputRG =
    ({ testRG with
        Status.GroupName := "coolGroup"
        Status.Conditions :=
          [creatingCondition, failedCondition reasonSyncingResource "boom"] }, true) := by
  decide

/-- `TestSync/FailedDescribeCacheClusters`: the endpoint stays unset
(the mock reports none) and the message wraps the cluster id. -/
example : Sync ccBoomClient syncInputRG =
    ({ testRG with
        Status.State := StatusAvailable
        Status.GroupName := "coolGroup"
        Status.Conditions :=
          [{ «Type» := "Creating", Status := "False" },
           { «Type» := "Ready", Status := "True" },
           failedCondition reasonSyncingResource
             ("cannot describe cache cluster " ++ testCacheClusterID ++ ": boom")]
        Status.MemberClusters := [testCacheClusterID] }, true) := by decide

/-- `TestSync/FailedModifyReplicationGroup`. -/
example : Sync modifyBoomClient syncInputRG =
    ({ availWantRG with
        Status.Conditions :=
          availWantRG.Status.Conditions ++ [failedCondition reasonSyncingResource "boom"] },
     true) := by decide

/-- `TestDelete/ReclaimRetainSuccessfulDelete`. -/
example : Delete baseClient
      { testRG with
        ObjMeta.Finalizers := [finalizerName]
        Spec.ReclaimPolicy := ReclaimRetain } =
    ({ testRG with
        Spec.ReclaimPolicy := ReclaimRetain
        Status.Conditions := [deletingCondition] }, false) := by decide

/-- `TestDelete/ReclaimDeleteSuccessfulDelete`. -/
example : Delete deleteOkClient
      { testRG with
        ObjMeta.Finalizers := [finalizerName]
        Spec.ReclaimPolicy := ReclaimDelete } =
    ({ testRG with
        Spec.ReclaimPolicy := ReclaimDelete
        Status.Conditions := [deletingCondition] }, false) := by decide

/-- `TestDelete/ReclaimDeleteFailedDelete`. -/
example : Delete deleteBoomClient
      { testRG with
        ObjMeta.Finalizers := [finalizerName]
        Spec.ReclaimPolicy := ReclaimDelete } =
    ({ testRG with
        ObjMeta.Finalizers := [finalizerName]
        Spec.ReclaimPolicy := ReclaimDelete
        Status.Conditions := [failedCondition reasonDeletingResource "boom"] }, true) := by
  decide

/-- `TestConnectionSecret/Successful`. -/
example : connectionSecret { testRG with Status.Endpoint := "172.16.0.1" } "coolToken" =
    { Name := "cool-connection-secret", Namespace := "coolNamespace",
      OwnerReferences :=
        [{ APIVersion := APIVersionStr, Kind := ReplicationGroupKindStr, Name := "coolGroup", UID := "definitely-a-uuid" }],
      Data := [(endpointKey, "172.16.0.1"), (passwordKey, "coolToken")] } := by decide

/-- The id the modelled `NewReplicationGroupID` derives for the UID of
the test file is the `id` constant the test file expects. -/
example : NewReplicationGroupID "definitely-a-uuid" = testID := by decide

end Cache

/-! ## The claims -/

/-- Copying a tag copies its key and its value verbatim, a nil key or
value staying unset. -/
theorem copyTag_eq (t : HttpNamespace.CRTag) :
    HttpNamespace.copyTag t = { Key := t.Key, Value := t.Value } := by
  obtain ⟨k, v⟩ := t
  cases k <;> cases v <;> rfl

/-- C7: `GenerateCreateHttpNamespaceInput` copies `Description`, `Name`
and `Tags` from `spec.forProvider` exactly where those are non-nil and
leaves them unset where they are nil; the tag list is copied
element-wise (so order and length are preserved, and a nil key or value
of a tag stays unset in the copy); nothing else is set. -/
theorem generateCreateHttpNamespaceInput_copies_forProvider
    (cr : HttpNamespace.HTTPNamespace) :
    (HttpNamespace.GenerateCreateHttpNamespaceInput cr).Description
        = cr.Spec.ForProvider.Description
  ∧ (HttpNamespace.GenerateCreateHttpNamespaceInput cr).Name = cr.Spec.ForProvider.Name
  ∧ (HttpNamespace.GenerateCreateHttpNamespaceInput cr).Tags
        = cr.Spec.ForProvider.Tags.map (fun ts =>
            ts.map (fun t => { Key := t.Key, Value := t.Value }))
  ∧ (HttpNamespace.GenerateCreateHttpNamespaceInput cr).CreatorRequestId = none := by
  obtain ⟨⟨d, n, ts⟩⟩ := cr
  refine ⟨?_, ?_, ?_, ?_⟩ <;>
    cases d <;> cases n <;> cases ts <;>
      simp [HttpNamespace.GenerateCreateHttpNamespaceInput, copyTag_eq]

/-- C8 counterexample: the update input does not reflect the desired
spec; two resources with different `spec.forProvider` blocks (distinct
`Description` and `Name`) produce the same, fully unset, update input. -/
theorem generateUpdateHttpNamespaceInput_ignores_forProvider :
    HttpNamespace.GenerateUpdateHttpNamespaceInput
        ⟨⟨{ Description := some "a", Name := some "ns-a" }⟩⟩
      = HttpNamespace.GenerateUpdateHttpNamespaceInput
        ⟨⟨{ Description := some "b", Name := some "ns-b" }⟩⟩
  ∧ (⟨⟨{ Description := some "a", Name := some "ns-a" }⟩⟩ : HttpNamespace.HTTPNamespace)
      ≠ ⟨⟨{ Description := some "b", Name := some "ns-b" }⟩⟩
  ∧ HttpNamespace.GenerateUpdateHttpNamespaceInput
        ⟨⟨{ Description := some "a", Name := some "ns-a" }⟩⟩
      = {} := by
  refine ⟨rfl, ?_, rfl⟩
  decide

/-- C8 (amended): `GenerateUpdateHttpNamespaceInput` copies no field at
all; it returns the empty update input (`Id`, `Namespace` and
`UpdaterRequestId` all unset) for every resource. -/
theorem generateUpdateHttpNamespaceInput_is_empty
    (cr : HttpNamespace.HTTPNamespace) :
    HttpNamespace.GenerateUpdateHttpNamespaceInput cr = {}
  ∧ (HttpNamespace.GenerateUpdateHttpNamespaceInput cr).Id = none
  ∧ (HttpNamespace.GenerateUpdateHttpNamespaceInput cr).Namespace = none
  ∧ (HttpNamespace.GenerateUpdateHttpNamespaceInput cr).UpdaterRequestId = none :=
  ⟨rfl, rfl, rfl, rfl⟩

/-- C10: `IsNotFound` is true exactly on an `awserr.Error` whose code
is the literal `UNKNOWN`; in particular it is false on nil and on every
error carrying the servicediscovery not-found code `NamespaceNotFound`,
so no genuine not-found error is classified as not-found. -/
theorem isNotFound_iff_code_unknown (e : GoErr) :
    (HttpNamespace.IsNotFound e = true ↔ ∃ m, e = GoErr.awserr "UNKNOWN" m)
  ∧ HttpNamespace.IsNotFound GoErr.nil = false
  ∧ (∀ m, HttpNamespace.IsNotFound
        (GoErr.awserr HttpNamespace.ErrCodeNamespaceNotFound m) = false) := by
  refine ⟨?_, rfl, fun m => rfl⟩
  cases e with
  | nil => simp [HttpNamespace.IsNotFound]
  | plain m => simp [HttpNamespace.IsNotFound]
  | awserr code m => simp [HttpNamespace.IsNotFound]

/-- Replacing the entry of key `k` in place leaves a list whose lookup
at `k` yields the new value, provided an entry with key `k` exists. -/
theorem lookup_map_replace (k v : String) :
    ∀ l : List (String × String), l.any (fun kv => kv.1 == k) = true →
      (l.map (fun kv => bif kv.1 == k then (kv.1, v) else kv)).lookup k = some v := by
  intro l
  induction l with
  | nil => intro h; simp at h
  | cons a t ih =>
    obtain ⟨a1, b1⟩ := a
    intro h
    by_cases hak : a1 = k
    · subst hak
      simp [List.lookup]
    · have ht : t.any (fun kv => kv.1 == k) = true := by simpa [hak] using h
      have hk : (k == a1) = false := by simp [Ne.symm hak]
      have hka : (a1 == k) = false := by simp [hak]
      simp [List.lookup, hka, hk, ih ht]

/-- Appending an entry of key `k` to a list with no entry of key `k`
gives a list whose lookup at `k` yields the appended value. -/
theorem lookup_append_missing (k v : String) :
    ∀ l : List (String × String), l.any (fun kv => kv.1 == k) = false →
      (l ++ [(k, v)]).lookup k = some v := by
  intro l
  induction l with
  | nil => intro _; simp [List.lookup]
  | cons a t ih =>
    obtain ⟨a1, b1⟩ := a
    intro h
    have hak : ¬a1 = k := by
      intro he
      simp [he] at h
    have ht : t.any (fun kv => kv.1 == k) = false := by simpa [hak] using h
    have hk : (k == a1) = false := by simp [Ne.symm hak]
    simp [List.lookup, hk, ih ht]

/-- Reading the external name back after `setExternalName` yields the
name just stored. -/
theorem getExternalName_setExternalName (cr : IntegrationResponse.IntegrationResponseCR)
    (v : String) :
    IntegrationResponse.getExternalName (IntegrationResponse.setExternalName cr v) = v := by
  unfold IntegrationResponse.getExternalName IntegrationResponse.setExternalName
  cases h : cr.Annotations.any (fun kv => kv.1 == IntegrationResponse.externalNameKey) with
  | true =>
    simp only [h, cond_true]
    rw [lookup_map_replace IntegrationResponse.externalNameKey v cr.Annotations h]
    rfl
  | false =>
    simp only [h, cond_false]
    rw [lookup_append_missing IntegrationResponse.externalNameKey v cr.Annotations h]
    rfl

/-- C5: the pre-hooks return a nil error and set exactly the claimed
input fields: `ApiId` and `IntegrationId` from `spec.forProvider` in
all three, plus `IntegrationResponseId` from the external-name
annotation in `preObserve` and `preDelete`; the record-update form of
each equation shows every other input field untouched (the create
input carries no `IntegrationResponseId` field at all, so `preCreate`
leaves it unset); `preDelete` returns `(false, nil)`. -/
theorem integrationResponse_pre_hooks (cr : IntegrationResponse.IntegrationResponseCR)
    (g : IntegrationResponse.GetIntegrationResponseInput)
    (c : IntegrationResponse.CreateIntegrationResponseInput)
    (d : IntegrationResponse.DeleteIntegrationResponseInput) :
    IntegrationResponse.preObserve cr g =
      ({ g with
          ApiId := cr.Spec.ForProvider.APIID
          IntegrationId := cr.Spec.ForProvider.IntegrationID
          IntegrationResponseId := some (IntegrationResponse.getExternalName cr) }, none)
  ∧ IntegrationResponse.preCreate cr c =
      ({ c with
          ApiId := cr.Spec.ForProvider.APIID
          IntegrationId := cr.Spec.ForProvider.IntegrationID }, none)
  ∧ IntegrationResponse.preDelete cr d =
      ({ d with
          ApiId := cr.Spec.ForProvider.APIID
          IntegrationId := cr.Spec.ForProvider.IntegrationID
          IntegrationResponseId := some (IntegrationResponse.getExternalName cr) },
        false, none) :=
  ⟨rfl, rfl, rfl⟩

/-- C6: the post-hooks propagate a non-nil error unchanged with a
zero-valued observation / creation and an unmodified resource; on a nil
error `postObserve` sets the Available condition and passes the
observation through, and `postCreate` stores the
`IntegrationResponseId` of the AWS response as the external-name
annotation and passes the creation through. -/
theorem integrationResponse_post_hooks (cr : IntegrationResponse.IntegrationResponseCR)
    (obs : IntegrationResponse.ExternalObservation)
    (resp : IntegrationResponse.CreateIntegrationResponseOutput)
    (cre : IntegrationResponse.ExternalCreation) (e : String) :
    IntegrationResponse.postObserve cr obs (some e) = (cr, {}, some e)
  ∧ IntegrationResponse.postCreate cr resp cre (some e) = (cr, {}, some e)
  ∧ IntegrationResponse.postObserve cr obs none =
      ({ cr with
          Conditions := setCondition cr.Conditions IntegrationResponse.availableCondition },
        obs, none)
  ∧ IntegrationResponse.postCreate cr resp cre none =
      (IntegrationResponse.setExternalName cr (stringValue resp.IntegrationResponseId),
        cre, none)
  ∧ IntegrationResponse.getExternalName (IntegrationResponse.postCreate cr resp cre none).1
      = stringValue resp.IntegrationResponseId :=
  ⟨rfl, rfl, rfl, rfl, getExternalName_setExternalName cr _⟩

/-- A `reqField` check that passed yields the field and its property. -/
theorem reqField_true {fields : List (String × JValue)} {k : String} {p : JValue → Bool}
    (h : ResolverEndpointCRD.reqField fields k p = true) :
    ∃ v, jlookup fields k = some v ∧ p v = true := by
  unfold ResolverEndpointCRD.reqField at h
  cases hj : jlookup fields k with
  | none => rw [hj] at h; cases h
  | some v => rw [hj] at h; exact ⟨v, rfl, h⟩

/-- An `optField` check that passed constrains the field when present. -/
theorem optField_true {fields : List (String × JValue)} {k : String} {p : JValue → Bool}
    (h : ResolverEndpointCRD.optField fields k p = true)
    {v : JValue} (hv : jlookup fields k = some v) : p v = true := by
  unfold ResolverEndpointCRD.optField at h
  rw [hv] at h
  exact h

/-- C9: every object admitted by the `openAPIV3Schema` of the
ResolverEndpoint CRD has a `spec` with a `forProvider` object carrying
the required fields `direction`, `ipAddresses` and `region`; a stored
`spec.deletionPolicy` is one of `Orphan` and `Delete`; and the
effective deletion policy, `Delete` by schema default when the field is
omitted, is always one of those two values. -/
theorem resolverEndpoint_admitted_shape (v : JValue)
    (h : ResolverEndpointCRD.checkResolverEndpoint v = true) :
    ∃ fields sp fp,
      v = JValue.jobj fields
    ∧ jlookup fields "spec" = some (JValue.jobj sp)
    ∧ jlookup sp "forProvider" = some (JValue.jobj fp)
    ∧ (jlookup fp "direction").isSome = true
    ∧ (jlookup fp "ipAddresses").isSome = true
    ∧ (jlookup fp "region").isSome = true
    ∧ (∀ d, jlookup sp "deletionPolicy" = some d →
          d = JValue.jstr "Orphan" ∨ d = JValue.jstr "Delete")
    ∧ (ResolverEndpointCRD.defaultedDeletionPolicy sp = JValue.jstr "Orphan"
        ∨ ResolverEndpointCRD.defaultedDeletionPolicy sp = JValue.jstr "Delete")
    ∧ (jlookup sp "deletionPolicy" = none →
          ResolverEndpointCRD.defaultedDeletionPolicy sp = JValue.jstr "Delete") := by
  cases v with
  | jobj fields =>
    refine ⟨fields, ?_⟩
    unfold ResolverEndpointCRD.checkResolverEndpoint at h
    simp only [Bool.and_eq_true, and_assoc] at h
    obtain ⟨hspec, -⟩ := h
    obtain ⟨sv, hs, hcs⟩ := reqField_true hspec
    cases sv with
    | jobj sp =>
      refine ⟨sp, ?_⟩
      unfold ResolverEndpointCRD.checkSpec at hcs
      simp only [Bool.and_eq_true, and_assoc] at hcs
      obtain ⟨hfp, hdp, -⟩ := hcs
      obtain ⟨fv, hf, hcf⟩ := reqField_true hfp
      cases fv with
      | jobj fp =>
        refine ⟨fp, rfl, hs, hf, ?_, ?_, ?_, ?_, ?_, ?_⟩
        · unfold ResolverEndpointCRD.checkForProvider at hcf
          simp only [Bool.and_eq_true, and_assoc] at hcf
          obtain ⟨hd, -⟩ := hcf
          obtain ⟨dv, hdl, -⟩ := reqField_true hd
          simp [hdl]
        · unfold ResolverEndpointCRD.checkForProvider at hcf
          simp only [Bool.and_eq_true, and_assoc] at hcf
          obtain ⟨-, hip, -⟩ := hcf
          obtain ⟨iv, hil, -⟩ := reqField_true hip
          simp [hil]
        · unfold ResolverEndpointCRD.checkForProvider at hcf
          simp only [Bool.and_eq_true, and_assoc] at hcf
          obtain ⟨-, -, hr, -⟩ := hcf
          obtain ⟨rv, hrl, -⟩ := reqField_true hr
          simp [hrl]
        · intro d hd
          have hp := optField_true hdp hd
          cases d with
          | jstr s =>
            rcases Bool.or_eq_true _ _ |>.mp hp with h1 | h1
            · left; rw [beq_iff_eq.mp h1]
            · right; rw [beq_iff_eq.mp h1]
          | jnull => cases hp
          | jbool b => cases hp
          | jnum n => cases hp
          | jarr a => cases hp
          | jobj o => cases hp
        · cases hd : jlookup sp "deletionPolicy" with
          | none =>
            right
            simp [ResolverEndpointCRD.defaultedDeletionPolicy, hd]
          | some d =>
            have hp := optField_true hdp hd
            cases d with
            | jstr s =>
              rcases Bool.or_eq_true _ _ |>.mp hp with h1 | h1
              · left
                simp [ResolverEndpointCRD.defaultedDeletionPolicy, hd,
                  beq_iff_eq.mp h1]
              · right
                simp [ResolverEndpointCRD.defaultedDeletionPolicy, hd,
                  beq_iff_eq.mp h1]
            | jnull => cases hp
            | jbool b => cases hp
            | jnum n => cases hp
            | jarr a => cases hp
            | jobj o => cases hp
        · intro hd
          simp [ResolverEndpointCRD.defaultedDeletionPolicy, hd]
      | jnull => cases hcf
      | jbool b => cases hcf
      | jnum n => cases hcf
      | jstr s => cases hcf
      | jarr a => cases hcf
    | jnull => cases hcs
    | jbool b => cases hcs
    | jnum n => cases hcs
    | jstr s => cases hcs
    | jarr a => cases hcs
  | jnull => cases h
  | jbool b => cases h
  | jnum n => cases h
  | jstr s => cases h
  | jarr a => cases h

/-- C9 witness: the sample object is admitted, and the theorem applies
to it; in particular its effective deletion policy defaults to
`Delete`. -/
theorem resolverEndpoint_admitted_shape_witness :
    ResolverEndpointCRD.checkResolverEndpoint ResolverEndpointCRD.sampleEndpoint = true
  ∧ ∃ fields sp fp,
      ResolverEndpointCRD.sampleEndpoint = JValue.jobj fields
    ∧ jlookup fields "spec" = some (JValue.jobj sp)
    ∧ jlookup sp "forProvider" = some (JValue.jobj fp)
    ∧ (jlookup fp "direction").isSome = true
    ∧ (jlookup fp "ipAddresses").isSome = true
    ∧ (jlookup fp "region").isSome = true
    ∧ (∀ d, jlookup sp "deletionPolicy" = some d →
          d = JValue.jstr "Orphan" ∨ d = JValue.jstr "Delete")
    ∧ (ResolverEndpointCRD.defaultedDeletionPolicy sp = JValue.jstr "Orphan"
        ∨ ResolverEndpointCRD.defaultedDeletionPolicy sp = JValue.jstr "Delete")
    ∧ (jlookup sp "deletionPolicy" = none →
          ResolverEndpointCRD.defaultedDeletionPolicy sp = JValue.jstr "Delete") :=
  ⟨rfl, resolverEndpoint_admitted_shape ResolverEndpointCRD.sampleEndpoint rfl⟩

/-- C4: the connection secret takes its name from the connection-secret
reference of the resource, lives in the namespace of the resource,
carries one owner reference naming the resource (API version, kind,
name, UID), and its data maps the endpoint key to `Status.Endpoint` and
the password key to the given password. -/
theorem connectionSecret_shape (g : Cache.ReplicationGroup) (p : String) :
    (Cache.connectionSecret g p).Name = g.Spec.ConnectionSecretRefName
  ∧ (Cache.connectionSecret g p).Namespace = g.ObjMeta.Namespace
  ∧ (Cache.connectionSecret g p).OwnerReferences =
      [{ APIVersion := Cache.APIVersionStr, Kind := Cache.ReplicationGroupKindStr,
         Name := g.ObjMeta.Name, UID := g.ObjMeta.UID }]
  ∧ (Cache.connectionSecret g p).Data.lookup Cache.endpointKey = some g.Status.Endpoint
  ∧ (Cache.connectionSecret g p).Data.lookup Cache.passwordKey = some p :=
  ⟨rfl, rfl, rfl, rfl, rfl⟩

/-- C2: `Create` always requeues. On a failed create call only the
Failed condition (reason `reasonCreatingResource`, the error message)
changes on the resource — finalizers, `Status.GroupName` and everything
else stay as they were. On a successful call the resource gets the
deterministic group name (`NamePrefix` plus the hex FNV-64a hash of the
UID), the Creating condition and the cache finalizer. -/
theorem cache_create_behavior (c : Cache.Client) (g : Cache.ReplicationGroup) :
    (Cache.Create c g).2 = true
  ∧ (∀ e, c.createReplicationGroup () = Except.error e →
        (Cache.Create c g).1 =
          { g with Status.Conditions :=
              (setCondition g.Status.Conditions
                (Cache.failedCondition Cache.reasonCreatingResource e)) })
  ∧ (c.createReplicationGroup () = Except.ok () →
        (Cache.Create c g).1 =
          { g with
              Status.GroupName :=
                Cache.NamePrefixStr ++ "-" ++ natToHex (fnv64a g.ObjMeta.UID)
              Status.Conditions :=
                (setCondition (unsetAllConditions g.Status.Conditions)
                  Cache.creatingCondition)
              ObjMeta.Finalizers :=
                if g.ObjMeta.Finalizers.contains Cache.finalizerName then
                  g.ObjMeta.Finalizers
                else g.ObjMeta.Finalizers ++ [Cache.finalizerName] }
      ∧ (Cache.Create c g).1.ObjMeta.Finalizers.contains Cache.finalizerName = true) := by
  refine ⟨?_, ?_, ?_⟩
  · unfold Cache.Create
    cases hcr : c.createReplicationGroup () with
    | error e => rfl
    | ok u => rfl
  · intro e he
    unfold Cache.Create
    rw [he]
    rfl
  · intro hok
    unfold Cache.Create
    rw [hok]
    by_cases hm : Cache.finalizerName ∈ g.ObjMeta.Finalizers
    · constructor
      · simp [Cache.addFinalizer, Cache.setCreating, Cache.creatingCondition,
          Cache.NewReplicationGroupID, hm]
      · simp [Cache.addFinalizer, Cache.setCreating, hm]
    · constructor
      · simp [Cache.addFinalizer, Cache.setCreating, Cache.creatingCondition,
          Cache.NewReplicationGroupID, hm]
      · simp [Cache.addFinalizer, Cache.setCreating, hm]

/-- C3: under reclaim policy Retain, `Delete` is independent of the AWS
client (no delete call can influence it), sets the Deleting condition,
removes the finalizer and does not requeue. Under reclaim policy Delete
it issues the delete call: on error only the Failed condition (reason
`reasonDeletingResource`, the error message) changes — the finalizer is
kept — and it requeues; on success it sets the Deleting condition,
removes the finalizer and does not requeue. -/
theorem cache_delete_behavior (c : Cache.Client) (g : Cache.ReplicationGroup) :
    (g.Spec.ReclaimPolicy = Cache.ReclaimRetain →
        (∀ c2 : Cache.Client, Cache.Delete c2 g = Cache.Delete c g)
      ∧ Cache.Delete c g =
          ({ g with
              Status.Conditions :=
                (setCondition (unsetAllConditions g.Status.Conditions)
                  Cache.deletingCondition)
              ObjMeta.Finalizers :=
                g.ObjMeta.Finalizers.filter (fun f => f != Cache.finalizerName) },
            false))
  ∧ (g.Spec.ReclaimPolicy = Cache.ReclaimDelete →
        (∀ e, c.deleteReplicationGroup g.Status.GroupName = Except.error e →
            Cache.Delete c g =
              ({ g with Status.Conditions :=
                  (setCondition g.Status.Conditions
                    (Cache.failedCondition Cache.reasonDeletingResource e)) }, true))
      ∧ (c.deleteReplicationGroup g.Status.GroupName = Except.ok () →
            Cache.Delete c g =
              ({ g with
                  Status.Conditions :=
                    (setCondition (unsetAllConditions g.Status.Conditions)
                      Cache.deletingCondition)
                  ObjMeta.Finalizers :=
                    g.ObjMeta.Finalizers.filter (fun f => f != Cache.finalizerName) },
                false))) := by
  constructor
  · intro hr
    constructor
    · intro c2
      simp [Cache.Delete, hr, Cache.ReclaimRetain, Cache.ReclaimDelete]
    · simp [Cache.Delete, hr, Cache.ReclaimRetain, Cache.ReclaimDelete,
        Cache.removeFinalizer, Cache.setDeleting, Cache.deletingCondition]
  · intro hd
    constructor
    · intro e he
      simp [Cache.Delete, hd, Cache.ReclaimDelete, he, Cache.setFailed,
        Cache.failedCondition]
    · intro hok
      simp [Cache.Delete, hd, Cache.ReclaimDelete, hok,
        Cache.removeFinalizer, Cache.setDeleting, Cache.deletingCondition]

/-- C1: for a resource whose `Status.GroupName` is set, `Sync` copies
the status reported by `DescribeReplicationGroups` into `Status.State`;
it requeues whenever the describe call fails, and while the reported
status is creating or modifying; once the status is deleting it stops
requeueing, and once it is available it stops requeueing exactly when
every AWS call the sync makes succeeds — regardless of whether a
`ModifyReplicationGroup` update was issued. -/
theorem cache_sync_state_and_requeue (c : Cache.Client) (g : Cache.ReplicationGroup)
    (_hname : g.Status.GroupName ≠ "") :
    (∀ e, c.describeReplicationGroups g.Status.GroupName = Except.error e →
        (Cache.Sync c g).2 = true)
  ∧ ∀ rg, c.describeReplicationGroups g.Status.GroupName = Except.ok rg →
      (Cache.Sync c g).1.Status.State = stringValue rg.Status
    ∧ ((stringValue rg.Status = Cache.StatusCreating ∨
          stringValue rg.Status = Cache.StatusModifying) → (Cache.Sync c g).2 = true)
    ∧ (stringValue rg.Status = Cache.StatusDeleting → (Cache.Sync c g).2 = false)
    ∧ (stringValue rg.Status = Cache.StatusAvailable →
          ((Cache.Sync c g).2 = false ↔ Cache.availableCallsSucceed c g rg = true)) := by
  constructor
  · intro e he
    simp [Cache.Sync, he]
  · intro rg hrg
    by_cases h1 : stringValue rg.Status = Cache.StatusCreating
    · refine ⟨?_, ?_, ?_, ?_⟩ <;>
        simp [Cache.Sync, hrg, h1, Cache.setCreating, Cache.StatusCreating,
          Cache.StatusDeleting, Cache.StatusModifying, Cache.StatusAvailable]
    · by_cases h2 : stringValue rg.Status = Cache.StatusDeleting
      · refine ⟨?_, ?_, ?_, ?_⟩ <;>
          simp [Cache.Sync, hrg, h2, Cache.setDeleting, Cache.StatusCreating,
            Cache.StatusDeleting, Cache.StatusModifying, Cache.StatusAvailable]
      · by_cases h3 : stringValue rg.Status = Cache.StatusModifying
        · refine ⟨?_, ?_, ?_, ?_⟩ <;>
            simp [Cache.Sync, hrg, h3, Cache.StatusCreating, Cache.StatusDeleting,
              Cache.StatusModifying, Cache.StatusAvailable]
        · have b1 : (stringValue rg.Status == Cache.StatusCreating) = false :=
            beq_eq_false_iff_ne.mpr h1
          have b2 : (stringValue rg.Status == Cache.StatusDeleting) = false :=
            beq_eq_false_iff_ne.mpr h2
          have b3 : (stringValue rg.Status == Cache.StatusModifying) = false :=
            beq_eq_false_iff_ne.mpr h3
          cases hcep : rg.ConfigurationEndpoint with
          | none =>
            cases hdc : Cache.describeEach c rg.MemberClusters with
            | error pr =>
              obtain ⟨cid, e⟩ := pr
              refine ⟨?_, ?_, ?_, ?_⟩ <;>
                simp [Cache.Sync, hrg, b1, b2, b3, hcep, hdc, Cache.setReady,
                  Cache.setFailed, Cache.availableCallsSucceed, h1, h2, h3]
            | ok ccs =>
              by_cases hp : Cache.replicationGroupSpecNeedsUpdate g.Spec rg = true
                  ∨ ∃ x ∈ ccs, Cache.cacheClusterSpecNeedsUpdate g.Spec x = true
              · cases hm : c.modifyReplicationGroup () with
                | error e2 =>
                  refine ⟨?_, ?_, ?_, ?_⟩ <;>
                    simp [Cache.Sync, hrg, b1, b2, b3, hcep, hdc, hp, hm,
                      Cache.setReady, Cache.setFailed, Cache.availableCallsSucceed,
                      Cache.replicationGroupNeedsUpdate, Cache.cacheClusterNeedsUpdate,
                      h1, h2, h3]
                | ok u =>
                  refine ⟨?_, ?_, ?_, ?_⟩ <;>
                    simp [Cache.Sync, hrg, b1, b2, b3, hcep, hdc, hp, hm,
                      Cache.setReady, Cache.setFailed, Cache.availableCallsSucceed,
                      Cache.replicationGroupNeedsUpdate, Cache.cacheClusterNeedsUpdate,
                      h1, h2, h3]
              · refine ⟨?_, ?_, ?_, ?_⟩ <;>
                  simp [Cache.Sync, hrg, b1, b2, b3, hcep, hdc, hp, Cache.setReady,
                    Cache.availableCallsSucceed, Cache.replicationGroupNeedsUpdate,
                    Cache.cacheClusterNeedsUpdate, h1, h2, h3]
          | some ep =>
            cases hdc : Cache.describeEach c rg.MemberClusters with
            | error pr =>
              obtain ⟨cid, e⟩ := pr
              refine ⟨?_, ?_, ?_, ?_⟩ <;>
                simp [Cache.Sync, hrg, b1, b2, b3, hcep, hdc, Cache.setReady,
                  Cache.setFailed, Cache.availableCallsSucceed, h1, h2, h3]
            | ok ccs =>
              by_cases hp : Cache.replicationGroupSpecNeedsUpdate g.Spec rg = true
                  ∨ ∃ x ∈ ccs, Cache.cacheClusterSpecNeedsUpdate g.Spec x = true
              · cases hm : c.modifyReplicationGroup () with
                | error e2 =>
                  refine ⟨?_, ?_, ?_, ?_⟩ <;>
                    simp [Cache.Sync, hrg, b1, b2, b3, hcep, hdc, hp, hm,
                      Cache.setReady, Cache.setFailed, Cache.availableCallsSucceed,
                      Cache.replicationGroupNeedsUpdate, Cache.cacheClusterNeedsUpdate,
                      h1, h2, h3]
                | ok u =>
                  refine ⟨?_, ?_, ?_, ?_⟩ <;>
                    simp [Cache.Sync, hrg, b1, b2, b3, hcep, hdc, hp, hm,
                      Cache.setReady, Cache.setFailed, Cache.availableCallsSucceed,
                      Cache.replicationGroupNeedsUpdate, Cache.cacheClusterNeedsUpdate,
                      h1, h2, h3]
              · refine ⟨?_, ?_, ?_, ?_⟩ <;>
                  simp [Cache.Sync, hrg, b1, b2, b3, hcep, hdc, hp, Cache.setReady,
                    Cache.availableCallsSucceed, Cache.replicationGroupNeedsUpdate,
                    Cache.cacheClusterNeedsUpdate, h1, h2, h3]

/-- C1 witness: at the concrete client of
`SuccessfulSyncWhileGroupCreating` and the concrete sync input resource
(whose group name `coolGroup` is set), the reported status `creating`
is copied into `Status.State` and the sync requeues. -/
theorem cache_sync_state_and_requeue_witness :
    (Cache.Sync Cache.syncCreatingClient Cache.syncInputRG).1.Status.State
        = Cache.StatusCreating
  ∧ (Cache.Sync Cache.syncCreatingClient Cache.syncInputRG).2 = true := by
  have h := cache_sync_state_and_requeue Cache.syncCreatingClient Cache.syncInputRG
    (by decide)
  have h2 := h.2 { Status := some Cache.StatusCreating } rfl
  exact ⟨h2.1, h2.2.1 (Or.inl rfl)⟩

end ProviderAWS
